import Mathlib

/-!
Verification of the geometric core of `dxf2pdf` (`src/main.py`).

The Python source is shallowly embedded over `ℚ`:
* Python floats become rationals; `math.cos(math.radians ·)` and
  `math.sin(math.radians ·)` over degree arguments are abstracted as
  function parameters `cosD sinD : ℚ → ℚ` (the claims under study concern
  the control flow around them, not trigonometric identities);
* the `±inf` seeds of `calculate_bounding_box` become an `Option` state
  (`none` = still at the infinite seeds, since `min(inf, x) = x`);
* a per-entity `try/except` that skips an entity whose attribute access
  raises is modelled by the `Entity.malformed` constructor, which
  contributes nothing and never aborts the fold;
* `dxf_to_pdf_tiled` returns `Except` (the only in-scope exception is the
  `ZeroDivisionError` raised by `width / content_w` when `content_w == 0`);
  its early `return` for a zero-extent drawing becomes `.ok none`
  (run finishes normally, no document written);
* the sequence of pages saved by the row/column loops becomes the
  `pages : List TileViewport` field of the output record.
-/

/-- 2D point with rational coordinates (models a pair of Python floats). -/
structure Point2D where
  x : ℚ
  y : ℚ
deriving DecidableEq

/-- Source `angle_in_arc(angle, start_deg, end_deg)` (nested in
`calculate_bounding_box`): wraparound-aware membership of `angle` in the
arc sweep, all arguments in degrees. -/
def angle_in_arc (angle start_deg end_deg : ℚ) : Bool :=
  if start_deg ≤ end_deg then decide (start_deg ≤ angle ∧ angle ≤ end_deg)
  else decide (angle ≥ start_deg ∨ angle ≤ end_deg)

/-- The `ARC` branch of `calculate_bounding_box` (src/main.py lines
154-192): seed the box from the two angular endpoints, then replace each
cardinal bound when the cardinal angle lies in the sweep.  `cosD`/`sinD`
stand for `math.cos(math.radians ·)` / `math.sin(math.radians ·)`.
Returns `(arc_min_x, arc_min_y, arc_max_x, arc_max_y)`. -/
def arcBox (cosD sinD : ℚ → ℚ) (center : Point2D) (radius sa ea : ℚ) :
    ℚ × ℚ × ℚ × ℚ :=
  let start_x := center.x + radius * cosD sa
  let start_y := center.y + radius * sinD sa
  let end_x := center.x + radius * cosD ea
  let end_y := center.y + radius * sinD ea
  let arc_min_x := min start_x end_x
  let arc_max_x := max start_x end_x
  let arc_min_y := min start_y end_y
  let arc_max_y := max start_y end_y
  let arc_max_x := if angle_in_arc 0 sa ea then center.x + radius else arc_max_x
  let arc_max_y := if angle_in_arc 90 sa ea then center.y + radius else arc_max_y
  let arc_min_x := if angle_in_arc 180 sa ea then center.x - radius else arc_min_x
  let arc_min_y := if angle_in_arc 270 sa ea then center.y - radius else arc_min_y
  (arc_min_x, arc_min_y, arc_max_x, arc_max_y)

/-- The DXF entities the source dispatches on (by `dxftype()` string).
`malformed` models an entity whose geometry access raises and is caught by
the per-entity `except` clause. -/
inductive Entity where
  | line (lineStart lineEnd : Point2D)
  | circle (center : Point2D) (radius : ℚ)
  | arc (center : Point2D) (radius start_angle end_angle : ℚ)
  | lwpolyline (points : List Point2D) (closed : Bool)
  | polyline (vertices : List Point2D) (is_closed is_3d_polyline is_3d_mesh : Bool)
  | ellipse (center major_axis : Point2D) (minorScale start_param end_param : ℚ)
  | spline (control_points : List Point2D)
  | point (loc : Point2D)
  | text (insert : Point2D)
  | malformed
deriving DecidableEq

/-- Running extremes `(min_x, min_y, max_x, max_y)` of the fold. -/
structure BBState where
  min_x : ℚ
  min_y : ℚ
  max_x : ℚ
  max_y : ℚ
deriving DecidableEq

/-- Fold one finite point into the running extremes.  `none` models the
initial `±inf` seeds of the source (`min(inf, x) = x`, `max(-inf, x) = x`). -/
def foldPoint : Option BBState → ℚ → ℚ → Option BBState
  | none, x, y => some ⟨x, y, x, y⟩
  | some s, x, y => some ⟨min s.min_x x, min s.min_y y, max s.max_x x, max s.max_y y⟩

/-- Merge a whole finite box `(a, b, c, d) = (minx, miny, maxx, maxy)` into
the running extremes (the `CIRCLE` / `ARC` update pattern of the source). -/
def mergeBox : Option BBState → ℚ → ℚ → ℚ → ℚ → Option BBState
  | none, a, b, c, d => some ⟨a, b, c, d⟩
  | some s, a, b, c, d => some ⟨min s.min_x a, min s.min_y b, max s.max_x c, max s.max_y d⟩

/-- One iteration of the `for entity in msp` loop of
`calculate_bounding_box` (src/main.py lines 138-228).  Entity kinds with no
branch in the source (`ELLIPSE`, `SPLINE`, and anything unsupported) leave
the state unchanged, as does a malformed entity (caught and skipped). -/
def updateEntity (cosD sinD : ℚ → ℚ) (st : Option BBState) : Entity → Option BBState
  | .line p q => foldPoint (foldPoint st p.x p.y) q.x q.y
  | .circle c r => mergeBox st (c.x - r) (c.y - r) (c.x + r) (c.y + r)
  | .arc c r sa ea =>
      match arcBox cosD sinD c r sa ea with
      | (a, b, u, v) => mergeBox st a b u v
  | .lwpolyline ps _ => ps.foldl (fun acc p => foldPoint acc p.x p.y) st
  | .polyline vs _ p3 m3 =>
      if !p3 && !m3 then vs.foldl (fun acc p => foldPoint acc p.x p.y) st else st
  | .point l => foldPoint st l.x l.y
  | .text p => foldPoint st p.x p.y
  | .ellipse _ _ _ _ _ => st
  | .spline _ => st
  | .malformed => st

/-- Source `calculate_bounding_box(msp)` (src/main.py lines 131-234):
fold all entities; if nothing contributed (`min_x` still `inf`) return the
sentinel `(0, 0, 0, 0)`, else `(min_x, min_y, max_x, max_y)`. -/
def calculate_bounding_box (cosD sinD : ℚ → ℚ) (msp : List Entity) : ℚ × ℚ × ℚ × ℚ :=
  match msp.foldl (updateEntity cosD sinD) none with
  | none => (0, 0, 0, 0)
  | some s => (s.min_x, s.min_y, s.max_x, s.max_y)

/-- The world-space rectangle one page renders (the `x0,x1,y0,y1` of the
tile loop in `dxf_to_pdf_tiled`). -/
structure TileViewport where
  x0 : ℚ
  x1 : ℚ
  y0 : ℚ
  y1 : ℚ
deriving DecidableEq

/-- The only exception the embedded fragment of `dxf_to_pdf_tiled` can
raise: Python's `ZeroDivisionError` from `width / content_w` when a
content dimension is exactly zero. -/
inductive ConvError where
  | zeroDivision
deriving DecidableEq

/-- The observable outcome of a completed `dxf_to_pdf_tiled` run: the
(possibly swapped) paper, the computed content dimensions and grid size,
and the sequence of page viewports saved to the PDF, in the order the
row/column loops produce them. -/
structure TiledOutput where
  paper : ℚ × ℚ
  content_w : ℚ
  content_h : ℚ
  cols : ℤ
  rows : ℤ
  pages : List TileViewport
deriving DecidableEq

/-- The page viewports generated by the nested
`for row in range(rows): for col in range(cols)` loops of
`dxf_to_pdf_tiled` (src/main.py lines 266-271), in row-major order.
`Int.toNat` mirrors Python's `range(n)` being empty for `n <= 0`. -/
def make_tiles (min_x min_y max_x max_y content_w content_h : ℚ)
    (cols rows : ℤ) : List TileViewport :=
  (List.range rows.toNat).flatMap fun (row : ℕ) =>
    (List.range cols.toNat).map fun (col : ℕ) =>
      { x0 := min_x + (col : ℚ) * content_w
        x1 := min (min_x + (col : ℚ) * content_w + content_w) max_x
        y0 := min_y + (row : ℚ) * content_h
        y1 := min (min_y + (row : ℚ) * content_h + content_h) max_y }

/-- The auto-orientation step of `dxf_to_pdf_tiled` (src/main.py lines
250-254): swap the paper's width/height when the drawing is wider than
tall and the configured paper is taller than wide
(`landscape_fits_better`). -/
def auto_paper (width height : ℚ) (p : ℚ × ℚ) : ℚ × ℚ :=
  if width > height ∧ p.1 < p.2 then (p.2, p.1) else p

/-- Source `dxf_to_pdf_tiled` (src/main.py lines 236-290), geometry only
(file reading and the matplotlib figure plumbing are external collaborators).
`.ok none` models the early `return` for a zero-extent drawing: the
function completes normally after printing a warning and no document is
written.  Otherwise the paper is auto-oriented, content dimensions and grid
size are computed, and the tile viewports are produced. -/
def dxf_to_pdf_tiled (cosD sinD : ℚ → ℚ) (msp : List Entity)
    (paper_size_mm : ℚ × ℚ) (margin_mm : ℚ) : Except ConvError (Option TiledOutput) :=
  let bb := calculate_bounding_box cosD sinD msp
  let min_x := bb.1
  let min_y := bb.2.1
  let max_x := bb.2.2.1
  let max_y := bb.2.2.2
  let width := max_x - min_x
  let height := max_y - min_y
  if width = 0 ∧ height = 0 then .ok none
  else
    let paper := auto_paper width height paper_size_mm
    let content_w := paper.1 - 2 * margin_mm
    let content_h := paper.2 - 2 * margin_mm
    if content_w = 0 ∨ content_h = 0 then .error .zeroDivision
    else
      let cols := ⌈width / content_w⌉
      let rows := ⌈height / content_h⌉
      .ok (some ⟨paper, content_w, content_h, cols, rows,
        make_tiles min_x min_y max_x max_y content_w content_h cols rows⟩)

/-- Source `add_crop_marks(ax, xlim, ylim, mark_len)` (src/main.py lines
114-129): the eight corner strokes, as (endpoint, endpoint) pairs, in the
order the source plots them (bottom-left, bottom-right, top-left,
top-right; horizontal stroke before vertical at each corner). -/
def add_crop_marks (x0 x1 y0 y1 mark_len : ℚ) : List (Point2D × Point2D) :=
  [ (⟨x0, y0⟩, ⟨x0 + mark_len, y0⟩),
    (⟨x0, y0⟩, ⟨x0, y0 + mark_len⟩),
    (⟨x1 - mark_len, y0⟩, ⟨x1, y0⟩),
    (⟨x1, y0⟩, ⟨x1, y0 + mark_len⟩),
    (⟨x0, y1⟩, ⟨x0 + mark_len, y1⟩),
    (⟨x0, y1 - mark_len⟩, ⟨x0, y1⟩),
    (⟨x1 - mark_len, y1⟩, ⟨x1, y1⟩),
    (⟨x1, y1 - mark_len⟩, ⟨x1, y1⟩) ]

/-- Length of a segment.  Every stroke `add_crop_marks` produces is
axis-aligned (one coordinate delta is zero), for which `|dx| + |dy|`
coincides with the Euclidean length. -/
def segLength (s : Point2D × Point2D) : ℚ :=
  |s.2.x - s.1.x| + |s.2.y - s.1.y|

/-- The named-size table of `parse_paper_size` (src/main.py lines 295-304),
keyed by character lists (Python strings are modelled as `List Char`). -/
def paper_sizes : List (List Char × (ℚ × ℚ)) :=
  [ ("A4".toList, (210, 297)),
    ("A3".toList, (297, 420)),
    ("A2".toList, (420, 594)),
    ("A1".toList, (594, 841)),
    ("A0".toList, (841, 1189)),
    ("LETTER".toList, (216, 279)),
    ("LEGAL".toList, (216, 356)),
    ("TABLOID".toList, (279, 432)) ]

/-- Python `str.split(',')` on a character list: always at least one piece,
empty pieces preserved. -/
def splitOnChar (sep : Char) : List Char → List (List Char)
  | [] => [[]]
  | c :: rest =>
      let r := splitOnChar sep rest
      if c = sep then [] :: r
      else
        match r with
        | h :: t => (c :: h) :: t
        | [] => [[c]]

/-- Python `str.strip()` restricted to ASCII whitespace. -/
def pyStrip (l : List Char) : List Char :=
  ((l.dropWhile Char.isWhitespace).reverse.dropWhile Char.isWhitespace).reverse

/-- Value of a nonempty digit string. -/
def digitsVal (l : List Char) : ℕ :=
  l.foldl (fun a c => 10 * a + (c.toNat - 48)) 0

/-- Mantissa of a Python float literal: `digits`, `digits.`, `.digits` or
`digits.digits` (at least one digit overall). -/
def parseMantVal (m : List Char) : Option ℚ :=
  match splitOnChar '.' m with
  | [ip] => if ip ≠ [] ∧ ip.all Char.isDigit then some ((digitsVal ip : ℕ) : ℚ) else none
  | [ip, fp] =>
      if (ip ++ fp) ≠ [] ∧ (ip ++ fp).all Char.isDigit then
        some (((digitsVal ip : ℕ) : ℚ) + ((digitsVal fp : ℕ) : ℚ) / 10 ^ fp.length)
      else none
  | _ => none

/-- Exponent part of a Python float literal: optional sign, nonempty digits. -/
def parseExp (l : List Char) : Option ℤ :=
  let (es, xd) : Bool × List Char :=
    match l with
    | '+' :: t => (false, t)
    | '-' :: t => (true, t)
    | _ => (false, l)
  if xd ≠ [] ∧ xd.all Char.isDigit then
    some (if es then -((digitsVal xd : ℕ) : ℤ) else ((digitsVal xd : ℕ) : ℤ))
  else none

/-- Model of CPython `float(s)` on an already-stripped string, for finite
decimal literals: optional sign, decimal mantissa, optional `e`/`E`
exponent.  (Digit-group underscores and the `inf`/`nan` spellings are not
modelled: the latter have no `ℚ` counterpart.)  `none` models the
`ValueError` that `parse_paper_size` catches. -/
def pyFloat (l : List Char) : Option ℚ :=
  let (neg, rest) : Bool × List Char :=
    match l with
    | '+' :: t => (false, t)
    | '-' :: t => (true, t)
    | _ => (false, l)
  match splitOnChar 'E' (rest.map fun c => if c = 'e' then 'E' else c) with
  | [mant] => (parseMantVal mant).map fun v => if neg then -v else v
  | [mant, ex] => do
      let v ← parseMantVal mant
      let e ← parseExp ex
      some (if neg then -(v * (10 : ℚ) ^ e) else v * (10 : ℚ) ^ e)
  | _ => none

/-- The custom `"width,height"` branch of `parse_paper_size` (src/main.py
lines 310-318): split on `','`; on exactly two pieces, strip and
float-parse each; any `ValueError` falls through to the final `raise`. -/
def customPaperPair (l : List Char) : Option (ℚ × ℚ) :=
  match splitOnChar ',' l with
  | [a, b] =>
      match pyFloat (pyStrip a), pyFloat (pyStrip b) with
      | some w, some h => some (w, h)
      | _, _ => none
  | _ => none

/-- The `ValueError` raised by `parse_paper_size` on unrecognized input. -/
inductive PaperSizeError where
  | invalid
deriving DecidableEq

/-- Source `parse_paper_size(size_str)` (src/main.py lines 292-320):
uppercase, look the string up in the named-size table, otherwise try the
literal `"width,height"` form, otherwise raise.  `Char.toUpper` models
Python `str.upper()` on the ASCII inputs in scope. -/
def parse_paper_size (size_str : String) : Except PaperSizeError (ℚ × ℚ) :=
  let s := size_str.toList.map Char.toUpper
  match paper_sizes.lookup s with
  | some p => .ok p
  | none =>
      match customPaperPair s with
      | some wh => .ok wh
      | none => .error .invalid

deriving instance DecidableEq for Except

/-- `(width, height)` of the drawing, as computed at src/main.py lines
242-243 from the bounding box. -/
def drawing_size (cosD sinD : ℚ → ℚ) (msp : List Entity) : ℚ × ℚ :=
  let bb := calculate_bounding_box cosD sinD msp
  (bb.2.2.1 - bb.1, bb.2.2.2 - bb.2.1)

/-- Folding a list of points into an already-finite state computes the
running min/max of the coordinates componentwise. -/
lemma foldPoints_extremes (ps : List Point2D) (a b c d : ℚ) :
    ps.foldl (fun acc r => foldPoint acc r.x r.y) (some ⟨a, b, c, d⟩) =
      some ⟨ps.foldl (fun v r => min v r.x) a, ps.foldl (fun v r => min v r.y) b,
            ps.foldl (fun v r => max v r.x) c, ps.foldl (fun v r => max v r.y) d⟩ := by
  induction ps generalizing a b c d with
  | nil => rfl
  | cons q qs ih =>
      rw [List.foldl_cons]
      exact ih (min a q.x) (min b q.y) (max c q.x) (max d q.y)

/-- C1: for every Arc, the bounding-box calculator seeds the arc's box from
the Cartesian positions of its two angular endpoints and replaces each
cardinal bound (max-x for 0°, max-y for 90°, min-x for 180°, min-y for
270°) with center ± radius exactly when the cardinal angle is contained in
the sweep under the wraparound-aware test; an Arc with start=350°, end=10°
yields max.x = center.x + radius and keeps min.x at the endpoint minimum
(it is not forced to center.x - radius). -/
theorem c1_arc_bounds (cosD sinD : ℚ → ℚ) (c : Point2D) (r sa ea : ℚ) :
    (∀ a s e : ℚ, angle_in_arc a s e = true ↔ (if s ≤ e then s ≤ a ∧ a ≤ e else a ≥ s ∨ a ≤ e)) ∧
    arcBox cosD sinD c r sa ea =
      (if angle_in_arc 180 sa ea then c.x - r else min (c.x + r * cosD sa) (c.x + r * cosD ea),
       if angle_in_arc 270 sa ea then c.y - r else min (c.y + r * sinD sa) (c.y + r * sinD ea),
       if angle_in_arc 0 sa ea then c.x + r else max (c.x + r * cosD sa) (c.x + r * cosD ea),
       if angle_in_arc 90 sa ea then c.y + r else max (c.y + r * sinD sa) (c.y + r * sinD ea)) ∧
    (arcBox cosD sinD c r 350 10).2.2.1 = c.x + r ∧
    (arcBox cosD sinD c r 350 10).1 = min (c.x + r * cosD 350) (c.x + r * cosD 10) := by
  refine ⟨fun a s e => ?_, rfl, ?_, ?_⟩
  · unfold angle_in_arc
    split_ifs <;> simp
  · simp only [arcBox]
    rw [show angle_in_arc 0 350 10 = true by decide]
    rfl
  · simp only [arcBox]
    rw [show angle_in_arc 180 350 10 = false by decide]
    rfl

/-- C8: the bounding-box fold is total: a malformed entity (one whose
geometry access raises) is skipped individually without aborting the fold
over the remaining entities, and an empty input yields the sentinel
`(0,0,0,0)` rather than an error.  (Totality itself is by construction:
`calculate_bounding_box` is a function into `ℚ × ℚ × ℚ × ℚ`, with no error
outcome in its type.) -/
theorem c8_bounding_box_total (cosD sinD : ℚ → ℚ) (es₁ es₂ : List Entity) :
    calculate_bounding_box cosD sinD (es₁ ++ Entity.malformed :: es₂) =
      calculate_bounding_box cosD sinD (es₁ ++ es₂) ∧
    calculate_bounding_box cosD sinD [] = (0, 0, 0, 0) := by
  refine ⟨?_, rfl⟩
  unfold calculate_bounding_box
  rw [List.foldl_append, List.foldl_append, List.foldl_cons]
  rfl

/-- C6 counterexample: a Spline entity contributes nothing to the bounding
box (there is no SPLINE branch in `calculate_bounding_box`), so a drawing
consisting of one spline with control points (5,5) and (10,10) yields the
sentinel box (0,0,0,0), not the control-point extremes (5,5,10,10). -/
theorem c6_spline_not_counted :
    calculate_bounding_box (fun _ => 1) (fun _ => 0)
      [Entity.spline [⟨5, 5⟩, ⟨10, 10⟩]] = (0, 0, 0, 0) ∧
    calculate_bounding_box (fun _ => 1) (fun _ => 0)
      [Entity.spline [⟨5, 5⟩, ⟨10, 10⟩]] ≠ (5, 5, 10, 10) := by
  constructor
  · rfl
  · decide

/-- C6 (amended): for Line, Point, TextAnchor and Polyline entities
(lightweight or full, the latter when its 3D flags are clear) the
bounding-box contribution is exactly the min/max over the entity's explicit
vertex/point coordinates; a Spline entity contributes nothing at all to the
fold (the source has no SPLINE branch in `calculate_bounding_box`). -/
theorem c6_linear_entities (cosD sinD : ℚ → ℚ) (p q l : Point2D)
    (ps cps : List Point2D) (b1 b2 : Bool) (st : Option BBState) :
    calculate_bounding_box cosD sinD [Entity.line p q] =
      (min p.x q.x, min p.y q.y, max p.x q.x, max p.y q.y) ∧
    calculate_bounding_box cosD sinD [Entity.point l] = (l.x, l.y, l.x, l.y) ∧
    calculate_bounding_box cosD sinD [Entity.text l] = (l.x, l.y, l.x, l.y) ∧
    calculate_bounding_box cosD sinD [Entity.lwpolyline (p :: ps) b1] =
      (ps.foldl (fun v r => min v r.x) p.x, ps.foldl (fun v r => min v r.y) p.y,
       ps.foldl (fun v r => max v r.x) p.x, ps.foldl (fun v r => max v r.y) p.y) ∧
    calculate_bounding_box cosD sinD [Entity.polyline (p :: ps) b2 false false] =
      (ps.foldl (fun v r => min v r.x) p.x, ps.foldl (fun v r => min v r.y) p.y,
       ps.foldl (fun v r => max v r.x) p.x, ps.foldl (fun v r => max v r.y) p.y) ∧
    updateEntity cosD sinD st (Entity.spline cps) = st := by
  refine ⟨rfl, rfl, rfl, ?_, ?_, rfl⟩
  · unfold calculate_bounding_box
    rw [List.foldl_cons, List.foldl_nil]
    show (match (p :: ps).foldl (fun acc r => foldPoint acc r.x r.y) none with
      | none => ((0 : ℚ), (0 : ℚ), (0 : ℚ), (0 : ℚ))
      | some s => (s.min_x, s.min_y, s.max_x, s.max_y)) = _
    rw [List.foldl_cons]
    show (match ps.foldl (fun acc r => foldPoint acc r.x r.y)
        (some ⟨p.x, p.y, p.x, p.y⟩) with
      | none => ((0 : ℚ), (0 : ℚ), (0 : ℚ), (0 : ℚ))
      | some s => (s.min_x, s.min_y, s.max_x, s.max_y)) = _
    rw [foldPoints_extremes]
  · unfold calculate_bounding_box
    rw [List.foldl_cons, List.foldl_nil]
    show (match (p :: ps).foldl (fun acc r => foldPoint acc r.x r.y) none with
      | none => ((0 : ℚ), (0 : ℚ), (0 : ℚ), (0 : ℚ))
      | some s => (s.min_x, s.min_y, s.max_x, s.max_y)) = _
    rw [List.foldl_cons]
    show (match ps.foldl (fun acc r => foldPoint acc r.x r.y)
        (some ⟨p.x, p.y, p.x, p.y⟩) with
      | none => ((0 : ℚ), (0 : ℚ), (0 : ℚ), (0 : ℚ))
      | some s => (s.min_x, s.min_y, s.max_x, s.max_y)) = _
    rw [foldPoints_extremes]

/-- C10 counterexample: with a negative `mark_length` the strokes still
have positive geometric length `|mark_length|`, so "each segment of length
mark_length" fails at `mark_length = -1`: every stroke has length 1 ≠ -1. -/
theorem c10_negative_mark_length :
    (add_crop_marks 0 10 0 10 (-1)).map segLength = List.replicate 8 1 ∧
    (1 : ℚ) ≠ -1 := by
  constructor
  · simp [add_crop_marks, segLength, List.replicate, add_sub_cancel_left,
      sub_sub_cancel, sub_self, abs_zero]
  · norm_num

/-- C10 (amended): for every viewport rectangle and every `mark_length`,
the crop-mark generator is a pure function producing exactly 8 segments,
two anchored at each of the four corners forming an L, each of geometric
length `|mark_length|` (which equals `mark_length` whenever
`mark_length ≥ 0`). -/
theorem c10_crop_marks (x0 x1 y0 y1 m : ℚ) :
    (add_crop_marks x0 x1 y0 y1 m).length = 8 ∧
    (add_crop_marks x0 x1 y0 y1 m).map segLength = List.replicate 8 |m| ∧
    ((⟨x0, y0⟩, ⟨x0 + m, y0⟩) : Point2D × Point2D) ∈ add_crop_marks x0 x1 y0 y1 m ∧
    ((⟨x0, y0⟩, ⟨x0, y0 + m⟩) : Point2D × Point2D) ∈ add_crop_marks x0 x1 y0 y1 m ∧
    ((⟨x1 - m, y0⟩, ⟨x1, y0⟩) : Point2D × Point2D) ∈ add_crop_marks x0 x1 y0 y1 m ∧
    ((⟨x1, y0⟩, ⟨x1, y0 + m⟩) : Point2D × Point2D) ∈ add_crop_marks x0 x1 y0 y1 m ∧
    ((⟨x0, y1⟩, ⟨x0 + m, y1⟩) : Point2D × Point2D) ∈ add_crop_marks x0 x1 y0 y1 m ∧
    ((⟨x0, y1 - m⟩, ⟨x0, y1⟩) : Point2D × Point2D) ∈ add_crop_marks x0 x1 y0 y1 m ∧
    ((⟨x1 - m, y1⟩, ⟨x1, y1⟩) : Point2D × Point2D) ∈ add_crop_marks x0 x1 y0 y1 m ∧
    ((⟨x1, y1 - m⟩, ⟨x1, y1⟩) : Point2D × Point2D) ∈ add_crop_marks x0 x1 y0 y1 m := by
  refine ⟨rfl, ?_, ?_, ?_, ?_, ?_, ?_, ?_, ?_, ?_⟩
  · simp [add_crop_marks, segLength, List.replicate, add_sub_cancel_left,
      sub_sub_cancel, sub_self, abs_zero]
  all_goals simp [add_crop_marks]

/-- Ceiling as negated floor, for evaluating `⌈⌉` with `norm_num`'s
`⌊⌋` extension. -/
lemma ceil_eq_neg_floor (a : ℚ) : ⌈a⌉ = -⌊-a⌋ := by
  rw [Int.floor_neg]
  ring

/-- A single LINE entity's bounding box is the componentwise min/max of its
two endpoints. -/
lemma bbox_single_line (cosD sinD : ℚ → ℚ) (p q : Point2D) :
    calculate_bounding_box cosD sinD [Entity.line p q] =
      (min p.x q.x, min p.y q.y, max p.x q.x, max p.y q.y) := rfl

/-- Execution of `dxf_to_pdf_tiled` on the success path: when the bounding
box is not zero-extent and both content dimensions are nonzero, the run
completes with the oriented paper, the content dimensions, the ceiling grid
size and the generated tiles. -/
lemma dxf_run_ok (cosD sinD : ℚ → ℚ) (msp : List Entity) (p pp : ℚ × ℚ)
    (m x0 y0 x1 y1 cw ch : ℚ) (cols rows : ℤ)
    (hbb : calculate_bounding_box cosD sinD msp = (x0, y0, x1, y1))
    (hnz : ¬(x1 - x0 = 0 ∧ y1 - y0 = 0))
    (hpp : auto_paper (x1 - x0) (y1 - y0) p = pp)
    (hcw : pp.1 - 2 * m = cw) (hch : pp.2 - 2 * m = ch)
    (hcw0 : cw ≠ 0) (hch0 : ch ≠ 0)
    (hcols : ⌈(x1 - x0) / cw⌉ = cols) (hrows : ⌈(y1 - y0) / ch⌉ = rows) :
    dxf_to_pdf_tiled cosD sinD msp p m =
      .ok (some ⟨pp, cw, ch, cols, rows, make_tiles x0 y0 x1 y1 cw ch cols rows⟩) := by
  simp only [dxf_to_pdf_tiled, hbb]
  rw [if_neg hnz]
  simp only [hpp, hcw, hch, hcols, hrows]
  rw [if_neg (not_or.mpr ⟨hcw0, hch0⟩)]

/-- Execution of `dxf_to_pdf_tiled` on the zero-extent path: the run
finishes normally with no document. -/
lemma dxf_run_none (cosD sinD : ℚ → ℚ) (msp : List Entity) (p : ℚ × ℚ)
    (m x0 y0 x1 y1 : ℚ)
    (hbb : calculate_bounding_box cosD sinD msp = (x0, y0, x1, y1))
    (hz1 : x1 - x0 = 0) (hz2 : y1 - y0 = 0) :
    dxf_to_pdf_tiled cosD sinD msp p m = .ok none := by
  simp only [dxf_to_pdf_tiled, hbb]
  rw [if_pos ⟨hz1, hz2⟩]

/-- Execution of `dxf_to_pdf_tiled` on the division-by-zero path: a content
dimension of exactly zero raises `ZeroDivisionError`. -/
lemma dxf_run_err (cosD sinD : ℚ → ℚ) (msp : List Entity) (p pp : ℚ × ℚ)
    (m x0 y0 x1 y1 : ℚ)
    (hbb : calculate_bounding_box cosD sinD msp = (x0, y0, x1, y1))
    (hnz : ¬(x1 - x0 = 0 ∧ y1 - y0 = 0))
    (hpp : auto_paper (x1 - x0) (y1 - y0) p = pp)
    (hz : pp.1 - 2 * m = 0 ∨ pp.2 - 2 * m = 0) :
    dxf_to_pdf_tiled cosD sinD msp p m = .error .zeroDivision := by
  simp only [dxf_to_pdf_tiled, hbb]
  rw [if_neg hnz]
  simp only [hpp]
  rw [if_pos hz]

/-- C3 counterexample: on an empty drawing the converter does not fail with
an error at all: `dxf_to_pdf_tiled` completes normally (after printing a
warning) with no document, and in `main` this path returns exit status 0,
not the exit 1 of fatal errors. -/
theorem c3_empty_drawing_not_error :
    dxf_to_pdf_tiled (fun _ => 1) (fun _ => 0) [] (210, 297) 10 = .ok none ∧
    dxf_to_pdf_tiled (fun _ => 1) (fun _ => 0) [] (210, 297) 10 ≠
      .error .zeroDivision := by
  have h := dxf_run_none (fun _ => 1) (fun _ => 0) [] (210, 297) 10 0 0 0 0 rfl
    (by norm_num) (by norm_num)
  exact ⟨h, by rw [h]; simp⟩

/-- C3 (amended): the tile planner aborts without producing an output
document exactly when the bounding box has zero width and zero height; but
this is signalled by a normal early return with a printed warning (and exit
status 0), not by raising an InvalidGeometry-style error. -/
theorem c3_zero_extent_aborts (cosD sinD : ℚ → ℚ) (msp : List Entity)
    (p : ℚ × ℚ) (m : ℚ) :
    dxf_to_pdf_tiled cosD sinD msp p m = .ok none ↔
      ((drawing_size cosD sinD msp).1 = 0 ∧ (drawing_size cosD sinD msp).2 = 0) := by
  simp only [dxf_to_pdf_tiled, drawing_size]
  split_ifs with h1 h2
  · exact iff_of_true rfl h1
  · exact iff_of_false (by simp) h1
  · exact iff_of_false (by simp) h1

/-- C9: the planner swaps the paper's width and height exactly when the
drawing is wider than tall and the configured paper is taller than wide,
and the content area is computed from the oriented paper. -/
theorem c9_auto_orient (cosD sinD : ℚ → ℚ) (msp : List Entity) (p : ℚ × ℚ)
    (m : ℚ) (out : TiledOutput)
    (hout : dxf_to_pdf_tiled cosD sinD msp p m = .ok (some out)) :
    (∀ w h : ℚ, ∀ pr : ℚ × ℚ,
      auto_paper w h pr = if w > h ∧ pr.1 < pr.2 then (pr.2, pr.1) else pr) ∧
    out.paper =
      auto_paper (drawing_size cosD sinD msp).1 (drawing_size cosD sinD msp).2 p ∧
    out.content_w = out.paper.1 - 2 * m ∧
    out.content_h = out.paper.2 - 2 * m := by
  refine ⟨fun w h pr => rfl, ?_⟩
  simp only [dxf_to_pdf_tiled] at hout
  split_ifs at hout with h1 h2
  · simp at hout
  · simp only [Except.ok.injEq, Option.some.injEq] at hout
    subst hout
    exact ⟨rfl, rfl, rfl⟩

/-- C2 counterexample: a drawing with zero width but positive height (a
single vertical line) passes the zero-extent guard, and the planner then
computes `columns = ceil(0 / content_w) = 0`, violating "columns and rows
are always >= 1"; the run produces a document with no pages. -/
theorem c2_zero_width_zero_columns :
    dxf_to_pdf_tiled (fun _ => 1) (fun _ => 0) [Entity.line ⟨0, 0⟩ ⟨0, 100⟩]
      (210, 297) 10 = .ok (some ⟨(210, 297), 190, 277, 0, 1, []⟩) ∧
    ¬(1 ≤ (0 : ℤ)) := by
  have h := dxf_run_ok (fun _ => 1) (fun _ => 0) [Entity.line ⟨0, 0⟩ ⟨0, 100⟩]
    (210, 297) (210, 297) 10 0 0 0 100 190 277 0 1
    (by decide) (by norm_num) (by norm_num [auto_paper]) (by norm_num) (by norm_num)
    (by norm_num) (by norm_num)
    (by rw [ceil_eq_neg_floor]; norm_num)
    (by rw [ceil_eq_neg_floor]; norm_num)
  refine ⟨?_, by norm_num⟩
  rw [h]
  simp [make_tiles]

/-- Componentwise reading of a `drawing_size` equation. -/
lemma drawing_size_eq (cosD sinD : ℚ → ℚ) (msp : List Entity) (w h : ℚ)
    (hwh : drawing_size cosD sinD msp = (w, h)) :
    (calculate_bounding_box cosD sinD msp).2.2.1 -
      (calculate_bounding_box cosD sinD msp).1 = w ∧
    (calculate_bounding_box cosD sinD msp).2.2.2 -
      (calculate_bounding_box cosD sinD msp).2.1 = h := by
  simpa [drawing_size, Prod.ext_iff] using hwh

/-- The drawing size of a single LINE entity. -/
lemma drawing_size_line (cosD sinD : ℚ → ℚ) (p q : Point2D) :
    drawing_size cosD sinD [Entity.line p q] =
      (max p.x q.x - min p.x q.x, max p.y q.y - min p.y q.y) := by
  simp [drawing_size, bbox_single_line]

/-- C2 (amended): whenever the planner reaches the grid computation it sets
`columns = ceil(drawing_width / content_w)` and
`rows = ceil(drawing_height / content_h)`; each count is `>= 1` when the
corresponding drawing dimension is positive (a zero dimension gives a count
of 0 for that axis, not 1). -/
theorem c2_grid_size (cosD sinD : ℚ → ℚ) (msp : List Entity) (p pp : ℚ × ℚ)
    (m w h cw ch : ℚ)
    (hwh : drawing_size cosD sinD msp = (w, h))
    (hnz : ¬(w = 0 ∧ h = 0))
    (hpp : auto_paper w h p = pp)
    (hcw : pp.1 - 2 * m = cw) (hch : pp.2 - 2 * m = ch)
    (hcw0 : cw ≠ 0) (hch0 : ch ≠ 0) :
    ∃ out, dxf_to_pdf_tiled cosD sinD msp p m = .ok (some out) ∧
      out.content_w = cw ∧ out.content_h = ch ∧
      out.cols = ⌈w / cw⌉ ∧ out.rows = ⌈h / ch⌉ ∧
      (0 < w → 0 < cw → 1 ≤ out.cols) ∧
      (0 < h → 0 < ch → 1 ≤ out.rows) := by
  obtain ⟨hw', hh'⟩ := drawing_size_eq cosD sinD msp w h hwh
  have hrun := dxf_run_ok cosD sinD msp p pp m
    (calculate_bounding_box cosD sinD msp).1 (calculate_bounding_box cosD sinD msp).2.1
    (calculate_bounding_box cosD sinD msp).2.2.1 (calculate_bounding_box cosD sinD msp).2.2.2
    cw ch ⌈w / cw⌉ ⌈h / ch⌉ rfl
    (by rw [hw', hh']; exact hnz)
    (by rw [hw', hh']; exact hpp) hcw hch hcw0 hch0
    (by rw [hw']) (by rw [hh'])
  refine ⟨_, hrun, rfl, rfl, rfl, rfl, fun hw0 hcwp => ?_, fun hh0 hchp => ?_⟩
  · show (1 : ℤ) ≤ ⌈w / cw⌉
    have := Int.ceil_pos.mpr (div_pos hw0 hcwp)
    omega
  · show (1 : ℤ) ≤ ⌈h / ch⌉
    have := Int.ceil_pos.mpr (div_pos hh0 hchp)
    omega

/-- C2 witness: a 1000-wide drawing on default A4 with margin 10 has
`content_w = 190` and `columns = ceil(1000/190) = 6`. -/
theorem c2_grid_size_witness :
    ∃ out, dxf_to_pdf_tiled (fun _ => 1) (fun _ => 0)
        [Entity.line ⟨0, 0⟩ ⟨1000, 1000⟩] (210, 297) 10 = .ok (some out) ∧
      out.content_w = 190 ∧ out.cols = 6 := by
  obtain ⟨out, hout, hcw, hch, hcols, hrows, h1, h2⟩ :=
    c2_grid_size (fun _ => 1) (fun _ => 0) [Entity.line ⟨0, 0⟩ ⟨1000, 1000⟩]
      (210, 297) (210, 297) 10 1000 1000 190 277
      (by rw [drawing_size_line]; norm_num)
      (by norm_num)
      (by norm_num [auto_paper])
      (by norm_num) (by norm_num) (by norm_num) (by norm_num)
  refine ⟨out, hout, hcw, ?_⟩
  rw [hcols, ceil_eq_neg_floor]
  norm_num

/-- C4 counterexample: the code performs no margin validation.  With A4
paper and margin 200 the content dimensions are negative (-103 and -190
after the landscape swap), yet the planner does not fail: it computes
negative grid counts and produces a document with zero pages. -/
theorem c4_oversized_margin_not_rejected :
    dxf_to_pdf_tiled (fun _ => 1) (fun _ => 0) [Entity.line ⟨0, 0⟩ ⟨1000, 500⟩]
      (210, 297) 200 = .ok (some ⟨(297, 210), -103, -190, -9, -2, []⟩) ∧
    (-103 : ℚ) < 0 := by
  have h := dxf_run_ok (fun _ => 1) (fun _ => 0) [Entity.line ⟨0, 0⟩ ⟨1000, 500⟩]
    (210, 297) (297, 210) 200 0 0 1000 500 (-103) (-190) (-9) (-2)
    (by decide) (by norm_num) (by norm_num [auto_paper]) (by norm_num) (by norm_num)
    (by norm_num) (by norm_num)
    (by rw [ceil_eq_neg_floor]; norm_num)
    (by rw [ceil_eq_neg_floor]; norm_num)
  refine ⟨?_, by norm_num⟩
  rw [h]
  simp [make_tiles]

/-- C4 (amended): the planner computes
`content_w = paper.width - 2*margin` and `content_h = paper.height -
2*margin` from the oriented paper, but it never raises an InvalidMargin
error: a content dimension of exactly zero surfaces as a division-by-zero
error, and a negative one lets the run proceed. -/
theorem c4_content_dims (cosD sinD : ℚ → ℚ) (msp : List Entity) (p pp : ℚ × ℚ)
    (m w h : ℚ)
    (hwh : drawing_size cosD sinD msp = (w, h))
    (hnz : ¬(w = 0 ∧ h = 0))
    (hpp : auto_paper w h p = pp) :
    (pp.1 - 2 * m = 0 ∨ pp.2 - 2 * m = 0 →
      dxf_to_pdf_tiled cosD sinD msp p m = .error .zeroDivision) ∧
    (pp.1 - 2 * m ≠ 0 → pp.2 - 2 * m ≠ 0 →
      ∃ out, dxf_to_pdf_tiled cosD sinD msp p m = .ok (some out) ∧
        out.content_w = pp.1 - 2 * m ∧ out.content_h = pp.2 - 2 * m) := by
  obtain ⟨hw', hh'⟩ := drawing_size_eq cosD sinD msp w h hwh
  constructor
  · intro hz
    exact dxf_run_err cosD sinD msp p pp m
      (calculate_bounding_box cosD sinD msp).1 (calculate_bounding_box cosD sinD msp).2.1
      (calculate_bounding_box cosD sinD msp).2.2.1
      (calculate_bounding_box cosD sinD msp).2.2.2 rfl
      (by rw [hw', hh']; exact hnz) (by rw [hw', hh']; exact hpp) hz
  · intro hcw0 hch0
    exact ⟨_, dxf_run_ok cosD sinD msp p pp m
      (calculate_bounding_box cosD sinD msp).1 (calculate_bounding_box cosD sinD msp).2.1
      (calculate_bounding_box cosD sinD msp).2.2.1
      (calculate_bounding_box cosD sinD msp).2.2.2
      (pp.1 - 2 * m) (pp.2 - 2 * m) _ _ rfl
      (by rw [hw', hh']; exact hnz) (by rw [hw', hh']; exact hpp) rfl rfl hcw0 hch0
      rfl rfl, rfl, rfl⟩

/-- C4 witness: with margin 297/2 on A4 the (swapped) content width is
exactly zero and the run fails with the division error. -/
theorem c4_content_dims_witness :
    dxf_to_pdf_tiled (fun _ => 1) (fun _ => 0) [Entity.line ⟨0, 0⟩ ⟨1000, 500⟩]
      (210, 297) (297 / 2) = .error .zeroDivision := by
  refine (c4_content_dims (fun _ => 1) (fun _ => 0) [Entity.line ⟨0, 0⟩ ⟨1000, 500⟩]
    (210, 297) (297, 210) (297 / 2) 1000 500
    (by rw [drawing_size_line]; norm_num)
    (by norm_num)
    (by norm_num [auto_paper])).1 ?_
  norm_num

/-- C9 witness: a drawing of width 800 and height 200 with default A4 paper
selects landscape (297, 210) before computing the content area. -/
theorem c9_auto_orient_witness :
    ∃ out, dxf_to_pdf_tiled (fun _ => 1) (fun _ => 0)
        [Entity.line ⟨0, 0⟩ ⟨800, 200⟩] (210, 297) 10 = .ok (some out) ∧
      out.paper = (297, 210) ∧ out.content_w = 277 ∧ out.content_h = 190 := by
  have h := dxf_run_ok (fun _ => 1) (fun _ => 0) [Entity.line ⟨0, 0⟩ ⟨800, 200⟩]
    (210, 297) (297, 210) 10 0 0 800 200 277 190 3 2
    (by decide) (by norm_num) (by norm_num [auto_paper]) (by norm_num) (by norm_num)
    (by norm_num) (by norm_num)
    (by rw [ceil_eq_neg_floor]; norm_num)
    (by rw [ceil_eq_neg_floor]; norm_num)
  obtain ⟨hchar, hp, hcw, hch⟩ := c9_auto_orient (fun _ => 1) (fun _ => 0)
    [Entity.line ⟨0, 0⟩ ⟨800, 200⟩] (210, 297) 10 _ h
  refine ⟨_, h, ?_, ?_, ?_⟩
  · rw [hp, show drawing_size (fun _ => 1) (fun _ => 0)
        [Entity.line ⟨0, 0⟩ ⟨800, 200⟩] = (800, 200) from by
          rw [drawing_size_line]; norm_num]
    norm_num [auto_paper]
  · rw [hcw, hp, show drawing_size (fun _ => 1) (fun _ => 0)
        [Entity.line ⟨0, 0⟩ ⟨800, 200⟩] = (800, 200) from by
          rw [drawing_size_line]; norm_num]
    norm_num [auto_paper]
  · rw [hch, hp, show drawing_size (fun _ => 1) (fun _ => 0)
        [Entity.line ⟨0, 0⟩ ⟨800, 200⟩] = (800, 200) from by
          rw [drawing_size_line]; norm_num]
    norm_num [auto_paper]

/-- C7 counterexample: the custom `"width,height"` branch performs no
positivity validation: `"0,0"` parses successfully to the pair `(0, 0)`,
which violates `width_mm > 0`. -/
theorem c7_nonpositive_pair_accepted :
    parse_paper_size "0,0" = .ok (0, 0) ∧ ¬((0 : ℚ) > 0) := by
  exact ⟨by decide, by norm_num⟩

/-- C7 (amended): the parser returns the documented pair for each of the
eight named sizes (all of which are positive), returns the float pair for a
literal `"width,height"` input (with no positivity check), and fails on
every other input. -/
theorem c7_paper_size_parse :
    parse_paper_size "A4" = .ok (210, 297) ∧
    parse_paper_size "A3" = .ok (297, 420) ∧
    parse_paper_size "A2" = .ok (420, 594) ∧
    parse_paper_size "A1" = .ok (594, 841) ∧
    parse_paper_size "A0" = .ok (841, 1189) ∧
    parse_paper_size "LETTER" = .ok (216, 279) ∧
    parse_paper_size "LEGAL" = .ok (216, 356) ∧
    parse_paper_size "TABLOID" = .ok (279, 432) ∧
    (∀ pr ∈ paper_sizes, 0 < pr.2.1 ∧ 0 < pr.2.2) ∧
    (∀ s : String, ∀ w h : ℚ,
      paper_sizes.lookup (s.toList.map Char.toUpper) = none →
      customPaperPair (s.toList.map Char.toUpper) = some (w, h) →
      parse_paper_size s = .ok (w, h)) ∧
    (∀ s : String,
      paper_sizes.lookup (s.toList.map Char.toUpper) = none →
      customPaperPair (s.toList.map Char.toUpper) = none →
      parse_paper_size s = .error .invalid) := by
  refine ⟨by decide, by decide, by decide, by decide, by decide, by decide, by decide,
    by decide, by decide, ?_, ?_⟩
  · intro s w h h1 h2
    simp only [parse_paper_size, h1, h2]
  · intro s h1 h2
    simp only [parse_paper_size, h1, h2]

/-- C7 witness: a literal custom size parses to its float pair. -/
theorem c7_paper_size_parse_witness :
    parse_paper_size "15,20" = .ok (15, 20) := by
  exact c7_paper_size_parse.2.2.2.2.2.2.2.2.2.1 "15,20" 15 20 (by decide) (by decide)

/-- The flatMap of a constant-length family over `List.range` has length
`n * k`. -/
lemma length_flatMap_const {α : Type} (n k : ℕ) (f : ℕ → List α)
    (hf : ∀ r, (f r).length = k) :
    ((List.range n).flatMap f).length = n * k := by
  induction n with
  | zero => simp
  | succ n ih =>
      rw [List.range_succ, List.flatMap_append, List.length_append, ih]
      simp [hf, Nat.succ_mul]

/-- `make_tiles` produces exactly `rows.toNat * cols.toNat` viewports. -/
lemma make_tiles_length (min_x min_y max_x max_y cw ch : ℚ) (cols rows : ℤ) :
    (make_tiles min_x min_y max_x max_y cw ch cols rows).length =
      rows.toNat * cols.toNat := by
  apply length_flatMap_const
  intro r
  rw [List.length_map, List.length_range]

/-- The viewport of tile `(r, c)` is among the generated tiles. -/
lemma make_tiles_mem (min_x min_y max_x max_y cw ch : ℚ) (cols rows : ℤ) (r c : ℕ)
    (hr : r < rows.toNat) (hc : c < cols.toNat) :
    ({ x0 := min_x + (c : ℚ) * cw, x1 := min (min_x + (c : ℚ) * cw + cw) max_x,
       y0 := min_y + (r : ℚ) * ch, y1 := min (min_y + (r : ℚ) * ch + ch) max_y } :
      TileViewport) ∈ make_tiles min_x min_y max_x max_y cw ch cols rows := by
  unfold make_tiles
  exact List.mem_flatMap_of_mem (List.mem_range.mpr hr)
    (List.mem_map_of_mem _ (List.mem_range.mpr hc))

/-- One-dimensional covering: any `x` in `[lo, hi]` lies in the `c`-th
content strip for some `c` below the ceiling count. -/
lemma interval_cover (lo hi cw : ℚ) (hsz : 0 < hi - lo) (hcw : 0 < cw)
    (x : ℚ) (hlo : lo ≤ x) (hhi : x ≤ hi) :
    ∃ c : ℕ, (c : ℤ) < ⌈(hi - lo) / cw⌉ ∧
      lo + (c : ℚ) * cw ≤ x ∧ x ≤ lo + (c : ℚ) * cw + cw := by
  have hC : (0 : ℤ) < ⌈(hi - lo) / cw⌉ := Int.ceil_pos.mpr (div_pos hsz hcw)
  set C := ⌈(hi - lo) / cw⌉ with hCdef
  set j : ℤ := min ⌊(x - lo) / cw⌋ (C - 1) with hjdef
  have hj0 : 0 ≤ j :=
    le_min (Int.floor_nonneg.mpr (div_nonneg (by linarith) hcw.le)) (by omega)
  have hjle : (j : ℚ) ≤ (x - lo) / cw := by
    calc (j : ℚ) ≤ (⌊(x - lo) / cw⌋ : ℚ) := by exact_mod_cast min_le_left _ _
    _ ≤ (x - lo) / cw := Int.floor_le _
  have hlow : lo + (j : ℚ) * cw ≤ x := by
    have := (le_div_iff₀ hcw).mp hjle
    linarith
  have hup : x ≤ lo + (j : ℚ) * cw + cw := by
    rcases le_or_lt ⌊(x - lo) / cw⌋ (C - 1) with hle | hgt
    · have hjeq : j = ⌊(x - lo) / cw⌋ := min_eq_left hle
      have h1 : (x - lo) / cw < (⌊(x - lo) / cw⌋ : ℚ) + 1 := Int.lt_floor_add_one _
      have h2 := (div_lt_iff₀ hcw).mp h1
      rw [hjeq]
      linarith
    · have hjeq : j = C - 1 := min_eq_right (by omega)
      have h1 : (hi - lo) / cw ≤ (C : ℚ) := Int.le_ceil _
      have h2 := (div_le_iff₀ hcw).mp h1
      rw [hjeq]
      push_cast
      linarith
  have hcast : ((j.toNat : ℕ) : ℚ) = (j : ℚ) := by
    exact_mod_cast congrArg Int.cast (Int.toNat_of_nonneg hj0)
  refine ⟨j.toNat, ?_, ?_, ?_⟩
  · rw [Int.toNat_of_nonneg hj0]
    exact lt_of_le_of_lt (min_le_right _ _) (by omega)
  · rw [hcast]
    exact hlow
  · rw [hcast]
    exact hup

/-- C5: for a bounding box of positive width and height and positive
content dimensions, the viewports are generated in row-major order starting
at the box's minimum corner with `x0 = min_x + col*content_w`,
`x1 = min(x0 + content_w, max_x)` (analogously for y); there are exactly
`columns * rows` of them, and their union exactly covers the bounding box
rectangle with no gaps. -/
theorem c5_tiling_coverage (min_x min_y max_x max_y cw ch : ℚ)
    (hw : 0 < max_x - min_x) (hh : 0 < max_y - min_y)
    (hcw : 0 < cw) (hch : 0 < ch) :
    (((make_tiles min_x min_y max_x max_y cw ch ⌈(max_x - min_x) / cw⌉
        ⌈(max_y - min_y) / ch⌉).length : ℤ) =
      ⌈(max_x - min_x) / cw⌉ * ⌈(max_y - min_y) / ch⌉) ∧
    (∀ r c : ℕ, (r : ℤ) < ⌈(max_y - min_y) / ch⌉ → (c : ℤ) < ⌈(max_x - min_x) / cw⌉ →
      ({ x0 := min_x + (c : ℚ) * cw, x1 := min (min_x + (c : ℚ) * cw + cw) max_x,
         y0 := min_y + (r : ℚ) * ch, y1 := min (min_y + (r : ℚ) * ch + ch) max_y } :
        TileViewport) ∈
        make_tiles min_x min_y max_x max_y cw ch ⌈(max_x - min_x) / cw⌉
          ⌈(max_y - min_y) / ch⌉) ∧
    (∀ x y : ℚ, (min_x ≤ x ∧ x ≤ max_x ∧ min_y ≤ y ∧ y ≤ max_y) ↔
      ∃ t ∈ make_tiles min_x min_y max_x max_y cw ch ⌈(max_x - min_x) / cw⌉
          ⌈(max_y - min_y) / ch⌉,
        t.x0 ≤ x ∧ x ≤ t.x1 ∧ t.y0 ≤ y ∧ y ≤ t.y1) := by
  have hC : (0 : ℤ) < ⌈(max_x - min_x) / cw⌉ := Int.ceil_pos.mpr (div_pos hw hcw)
  have hR : (0 : ℤ) < ⌈(max_y - min_y) / ch⌉ := Int.ceil_pos.mpr (div_pos hh hch)
  refine ⟨?_, ?_, ?_⟩
  · rw [make_tiles_length]
    push_cast [Int.toNat_of_nonneg hC.le, Int.toNat_of_nonneg hR.le]
    ring
  · intro r c h1 h2
    exact make_tiles_mem _ _ _ _ _ _ _ _ r c (by omega) (by omega)
  · intro x y
    constructor
    · rintro ⟨h1, h2, h3, h4⟩
      obtain ⟨c, hcC, hcl, hcu⟩ := interval_cover min_x max_x cw hw hcw x h1 h2
      obtain ⟨r, hrR, hrl, hru⟩ := interval_cover min_y max_y ch hh hch y h3 h4
      exact ⟨_, make_tiles_mem _ _ _ _ _ _ _ _ r c (by omega) (by omega), hcl,
        le_min hcu h2, hrl, le_min hru h4⟩
    · rintro ⟨t, ht, hx0, hx1, hy0, hy1⟩
      unfold make_tiles at ht
      obtain ⟨rIdx, _, htm⟩ := List.mem_flatMap.mp ht
      obtain ⟨cIdx, _, hteq⟩ := List.mem_map.mp htm
      subst hteq
      dsimp only at hx0 hx1 hy0 hy1
      have hxc : (0 : ℚ) ≤ (cIdx : ℚ) * cw := mul_nonneg (Nat.cast_nonneg cIdx) hcw.le
      have hyc : (0 : ℚ) ≤ (rIdx : ℚ) * ch := mul_nonneg (Nat.cast_nonneg rIdx) hch.le
      exact ⟨by linarith, le_trans hx1 (min_le_right _ _), by linarith,
        le_trans hy1 (min_le_right _ _)⟩

/-- C5 witness: a 100 by 50 box with 277 by 190 content yields exactly
`ceil(100/277) * ceil(50/190)` viewports. -/
theorem c5_tiling_coverage_witness :
    (((make_tiles 0 0 100 50 277 190 ⌈((100 : ℚ) - 0) / 277⌉
        ⌈((50 : ℚ) - 0) / 190⌉).length : ℤ) =
      ⌈((100 : ℚ) - 0) / 277⌉ * ⌈((50 : ℚ) - 0) / 190⌉) := by
  exact (c5_tiling_coverage 0 0 100 50 277 190 (by norm_num) (by norm_num)
    (by norm_num) (by norm_num)).1

/-- C3 witness: instantiation of the zero-extent characterization at the
empty drawing. -/
theorem c3_zero_extent_aborts_witness :
    dxf_to_pdf_tiled (fun _ => 1) (fun _ => 0) [] (210, 297) 10 = .ok none ↔
      ((drawing_size (fun _ => 1) (fun _ => 0) []).1 = 0 ∧
       (drawing_size (fun _ => 1) (fun _ => 0) []).2 = 0) := by
  exact c3_zero_extent_aborts (fun _ => 1) (fun _ => 0) [] (210, 297) 10
